import Mathlib

/-!
Verification of the Nano Banana image-generation backend (src/backend/app.py).

The development shallowly embeds the backend's pure logic:
* the request builder of `generate_image` (data-URL parsing via the regex
  `data:(image/\w+);base64,(.+)` and front-insertion of inline parts),
* the submission validation of `generate_image` (credential and prompt checks),
* the generation engine `_execute_generation` (endpoint failover loop, streamed
  progress estimation, response classification, terminal job state),
* the credential operations `set_api_key`, `check_api_key`, `verify_api_key`.

Network effects are represented by explicit per-endpoint outcome values; Python
strings are modelled as Lean strings, with slicing done on the underlying
character lists (Python slices by code point).
-/

set_option maxRecDepth 8192

namespace NanoBanana

/-! ### String helpers mirroring Python primitives -/

/-- Python `s[:n]` (character slice). -/
def pySlice (s : String) (n : Nat) : String := String.mk (s.data.take n)

/-- Python `s[-n:]` for `n ≥ 1`; clamps to the whole string when `len(s) < n`,
exactly as Python's negative-index slice does. -/
def pyLast (s : String) (n : Nat) : String :=
  String.mk (s.data.drop (s.data.length - n))

/-- Strips `p` from the front of `s`, returning the remainder on success. -/
def stripPre : List Char → List Char → Option (List Char)
  | [], s => some s
  | _ :: _, [] => none
  | p :: ps, c :: cs => if p = c then stripPre ps cs else none

/-- Bool test that `sub` is a prefix of `s` (chars). -/
def startsWithL (sub s : List Char) : Bool := (stripPre sub s).isSome

/-- Bool test that `sub` occurs as a contiguous sublist of `s`;
Python's `sub in s` on strings. -/
def isSubList (sub : List Char) : List Char → Bool
  | [] => sub.isEmpty
  | c :: t => startsWithL sub (c :: t) || isSubList sub t

/-- Python `needle in hay` for strings. -/
def pyIn (needle hay : String) : Bool := isSubList needle.data hay.data

/-- Characters Python's `str.strip()` removes (ASCII whitespace; the backend
only ever strips prompts, for which this set is the relevant one). -/
def isPySpace (c : Char) : Bool :=
  c == ' ' || c == '\t' || c == '\n' || c == '\r' || c == '\x0b' || c == '\x0c'

/-- Python `not s.strip()`: true iff every character is whitespace. -/
def pyStripIsEmpty (s : String) : Bool := s.data.all isPySpace

/-- Python `last_error or default` on an optional string: `None` and the empty
string are both falsy. -/
def pyOr (s : Option String) (d : String) : String :=
  match s with
  | some t => if t = "" then d else t
  | none => d

/-- The maximal codepoint intervals matched by `\\w` in a CPython `str`-pattern
regex (Unicode word characters: Unicode alphanumerics plus the underscore;
Unicode 14.0 tables; the surrogate gap is excluded, as a Lean `Char` cannot
hold a surrogate). -/
def wordRanges : List (Nat × Nat) :=
  [(48, 57), (65, 90), (95, 95), (97, 122), (170, 170), (178, 179),
   (181, 181), (185, 186), (188, 190), (192, 214), (216, 246), (248, 705),
   (710, 721), (736, 740), (748, 748), (750, 750), (880, 884), (886, 887),
   (890, 893), (895, 895), (902, 902), (904, 906), (908, 908), (910, 929),
   (931, 1013), (1015, 1153), (1162, 1327), (1329, 1366), (1369, 1369), (1376, 1416),
   (1488, 1514), (1519, 1522), (1568, 1610), (1632, 1641), (1646, 1647), (1649, 1747),
   (1749, 1749), (1765, 1766), (1774, 1788), (1791, 1791), (1808, 1808), (1810, 1839),
   (1869, 1957), (1969, 1969), (1984, 2026), (2036, 2037), (2042, 2042), (2048, 2069),
   (2074, 2074), (2084, 2084), (2088, 2088), (2112, 2136), (2144, 2154), (2160, 2183),
   (2185, 2190), (2208, 2249), (2308, 2361), (2365, 2365), (2384, 2384), (2392, 2401),
   (2406, 2415), (2417, 2432), (2437, 2444), (2447, 2448), (2451, 2472), (2474, 2480),
   (2482, 2482), (2486, 2489), (2493, 2493), (2510, 2510), (2524, 2525), (2527, 2529),
   (2534, 2545), (2548, 2553), (2556, 2556), (2565, 2570), (2575, 2576), (2579, 2600),
   (2602, 2608), (2610, 2611), (2613, 2614), (2616, 2617), (2649, 2652), (2654, 2654),
   (2662, 2671), (2674, 2676), (2693, 2701), (2703, 2705), (2707, 2728), (2730, 2736),
   (2738, 2739), (2741, 2745), (2749, 2749), (2768, 2768), (2784, 2785), (2790, 2799),
   (2809, 2809), (2821, 2828), (2831, 2832), (2835, 2856), (2858, 2864), (2866, 2867),
   (2869, 2873), (2877, 2877), (2908, 2909), (2911, 2913), (2918, 2927), (2929, 2935),
   (2947, 2947), (2949, 2954), (2958, 2960), (2962, 2965), (2969, 2970), (2972, 2972),
   (2974, 2975), (2979, 2980), (2984, 2986), (2990, 3001), (3024, 3024), (3046, 3058),
   (3077, 3084), (3086, 3088), (3090, 3112), (3114, 3129), (3133, 3133), (3160, 3162),
   (3165, 3165), (3168, 3169), (3174, 3183), (3192, 3198), (3200, 3200), (3205, 3212),
   (3214, 3216), (3218, 3240), (3242, 3251), (3253, 3257), (3261, 3261), (3293, 3294),
   (3296, 3297), (3302, 3311), (3313, 3314), (3332, 3340), (3342, 3344), (3346, 3386),
   (3389, 3389), (3406, 3406), (3412, 3414), (3416, 3425), (3430, 3448), (3450, 3455),
   (3461, 3478), (3482, 3505), (3507, 3515), (3517, 3517), (3520, 3526), (3558, 3567),
   (3585, 3632), (3634, 3635), (3648, 3654), (3664, 3673), (3713, 3714), (3716, 3716),
   (3718, 3722), (3724, 3747), (3749, 3749), (3751, 3760), (3762, 3763), (3773, 3773),
   (3776, 3780), (3782, 3782), (3792, 3801), (3804, 3807), (3840, 3840), (3872, 3891),
   (3904, 3911), (3913, 3948), (3976, 3980), (4096, 4138), (4159, 4169), (4176, 4181),
   (4186, 4189), (4193, 4193), (4197, 4198), (4206, 4208), (4213, 4225), (4238, 4238),
   (4240, 4249), (4256, 4293), (4295, 4295), (4301, 4301), (4304, 4346), (4348, 4680),
   (4682, 4685), (4688, 4694), (4696, 4696), (4698, 4701), (4704, 4744), (4746, 4749),
   (4752, 4784), (4786, 4789), (4792, 4798), (4800, 4800), (4802, 4805), (4808, 4822),
   (4824, 4880), (4882, 4885), (4888, 4954), (4969, 4988), (4992, 5007), (5024, 5109),
   (5112, 5117), (5121, 5740), (5743, 5759), (5761, 5786), (5792, 5866), (5870, 5880),
   (5888, 5905), (5919, 5937), (5952, 5969), (5984, 5996), (5998, 6000), (6016, 6067),
   (6103, 6103), (6108, 6108), (6112, 6121), (6128, 6137), (6160, 6169), (6176, 6264),
   (6272, 6276), (6279, 6312), (6314, 6314), (6320, 6389), (6400, 6430), (6470, 6509),
   (6512, 6516), (6528, 6571), (6576, 6601), (6608, 6618), (6656, 6678), (6688, 6740),
   (6784, 6793), (6800, 6809), (6823, 6823), (6917, 6963), (6981, 6988), (6992, 7001),
   (7043, 7072), (7086, 7141), (7168, 7203), (7232, 7241), (7245, 7293), (7296, 7304),
   (7312, 7354), (7357, 7359), (7401, 7404), (7406, 7411), (7413, 7414), (7418, 7418),
   (7424, 7615), (7680, 7957), (7960, 7965), (7968, 8005), (8008, 8013), (8016, 8023),
   (8025, 8025), (8027, 8027), (8029, 8029), (8031, 8061), (8064, 8116), (8118, 8124),
   (8126, 8126), (8130, 8132), (8134, 8140), (8144, 8147), (8150, 8155), (8160, 8172),
   (8178, 8180), (8182, 8188), (8304, 8305), (8308, 8313), (8319, 8329), (8336, 8348),
   (8450, 8450), (8455, 8455), (8458, 8467), (8469, 8469), (8473, 8477), (8484, 8484),
   (8486, 8486), (8488, 8488), (8490, 8493), (8495, 8505), (8508, 8511), (8517, 8521),
   (8526, 8526), (8528, 8585), (9312, 9371), (9450, 9471), (10102, 10131), (11264, 11492),
   (11499, 11502), (11506, 11507), (11517, 11517), (11520, 11557), (11559, 11559), (11565, 11565),
   (11568, 11623), (11631, 11631), (11648, 11670), (11680, 11686), (11688, 11694), (11696, 11702),
   (11704, 11710), (11712, 11718), (11720, 11726), (11728, 11734), (11736, 11742), (11823, 11823),
   (12293, 12295), (12321, 12329), (12337, 12341), (12344, 12348), (12353, 12438), (12445, 12447),
   (12449, 12538), (12540, 12543), (12549, 12591), (12593, 12686), (12690, 12693), (12704, 12735),
   (12784, 12799), (12832, 12841), (12872, 12879), (12881, 12895), (12928, 12937), (12977, 12991),
   (13312, 19903), (19968, 42124), (42192, 42237), (42240, 42508), (42512, 42539), (42560, 42606),
   (42623, 42653), (42656, 42735), (42775, 42783), (42786, 42888), (42891, 42954), (42960, 42961),
   (42963, 42963), (42965, 42969), (42994, 43009), (43011, 43013), (43015, 43018), (43020, 43042),
   (43056, 43061), (43072, 43123), (43138, 43187), (43216, 43225), (43250, 43255), (43259, 43259),
   (43261, 43262), (43264, 43301), (43312, 43334), (43360, 43388), (43396, 43442), (43471, 43481),
   (43488, 43492), (43494, 43518), (43520, 43560), (43584, 43586), (43588, 43595), (43600, 43609),
   (43616, 43638), (43642, 43642), (43646, 43695), (43697, 43697), (43701, 43702), (43705, 43709),
   (43712, 43712), (43714, 43714), (43739, 43741), (43744, 43754), (43762, 43764), (43777, 43782),
   (43785, 43790), (43793, 43798), (43808, 43814), (43816, 43822), (43824, 43866), (43868, 43881),
   (43888, 44002), (44016, 44025), (44032, 55203), (55216, 55238), (55243, 55291), (63744, 64109),
   (64112, 64217), (64256, 64262), (64275, 64279), (64285, 64285), (64287, 64296), (64298, 64310),
   (64312, 64316), (64318, 64318), (64320, 64321), (64323, 64324), (64326, 64433), (64467, 64829),
   (64848, 64911), (64914, 64967), (65008, 65019), (65136, 65140), (65142, 65276), (65296, 65305),
   (65313, 65338), (65345, 65370), (65382, 65470), (65474, 65479), (65482, 65487), (65490, 65495),
   (65498, 65500), (65536, 65547), (65549, 65574), (65576, 65594), (65596, 65597), (65599, 65613),
   (65616, 65629), (65664, 65786), (65799, 65843), (65856, 65912), (65930, 65931), (66176, 66204),
   (66208, 66256), (66273, 66299), (66304, 66339), (66349, 66378), (66384, 66421), (66432, 66461),
   (66464, 66499), (66504, 66511), (66513, 66517), (66560, 66717), (66720, 66729), (66736, 66771),
   (66776, 66811), (66816, 66855), (66864, 66915), (66928, 66938), (66940, 66954), (66956, 66962),
   (66964, 66965), (66967, 66977), (66979, 66993), (66995, 67001), (67003, 67004), (67072, 67382),
   (67392, 67413), (67424, 67431), (67456, 67461), (67463, 67504), (67506, 67514), (67584, 67589),
   (67592, 67592), (67594, 67637), (67639, 67640), (67644, 67644), (67647, 67669), (67672, 67702),
   (67705, 67742), (67751, 67759), (67808, 67826), (67828, 67829), (67835, 67867), (67872, 67897),
   (67968, 68023), (68028, 68047), (68050, 68096), (68112, 68115), (68117, 68119), (68121, 68149),
   (68160, 68168), (68192, 68222), (68224, 68255), (68288, 68295), (68297, 68324), (68331, 68335),
   (68352, 68405), (68416, 68437), (68440, 68466), (68472, 68497), (68521, 68527), (68608, 68680),
   (68736, 68786), (68800, 68850), (68858, 68899), (68912, 68921), (69216, 69246), (69248, 69289),
   (69296, 69297), (69376, 69415), (69424, 69445), (69457, 69460), (69488, 69505), (69552, 69579),
   (69600, 69622), (69635, 69687), (69714, 69743), (69745, 69746), (69749, 69749), (69763, 69807),
   (69840, 69864), (69872, 69881), (69891, 69926), (69942, 69951), (69956, 69956), (69959, 69959),
   (69968, 70002), (70006, 70006), (70019, 70066), (70081, 70084), (70096, 70106), (70108, 70108),
   (70113, 70132), (70144, 70161), (70163, 70187), (70272, 70278), (70280, 70280), (70282, 70285),
   (70287, 70301), (70303, 70312), (70320, 70366), (70384, 70393), (70405, 70412), (70415, 70416),
   (70419, 70440), (70442, 70448), (70450, 70451), (70453, 70457), (70461, 70461), (70480, 70480),
   (70493, 70497), (70656, 70708), (70727, 70730), (70736, 70745), (70751, 70753), (70784, 70831),
   (70852, 70853), (70855, 70855), (70864, 70873), (71040, 71086), (71128, 71131), (71168, 71215),
   (71236, 71236), (71248, 71257), (71296, 71338), (71352, 71352), (71360, 71369), (71424, 71450),
   (71472, 71483), (71488, 71494), (71680, 71723), (71840, 71922), (71935, 71942), (71945, 71945),
   (71948, 71955), (71957, 71958), (71960, 71983), (71999, 71999), (72001, 72001), (72016, 72025),
   (72096, 72103), (72106, 72144), (72161, 72161), (72163, 72163), (72192, 72192), (72203, 72242),
   (72250, 72250), (72272, 72272), (72284, 72329), (72349, 72349), (72368, 72440), (72704, 72712),
   (72714, 72750), (72768, 72768), (72784, 72812), (72818, 72847), (72960, 72966), (72968, 72969),
   (72971, 73008), (73030, 73030), (73040, 73049), (73056, 73061), (73063, 73064), (73066, 73097),
   (73112, 73112), (73120, 73129), (73440, 73458), (73648, 73648), (73664, 73684), (73728, 74649),
   (74752, 74862), (74880, 75075), (77712, 77808), (77824, 78894), (82944, 83526), (92160, 92728),
   (92736, 92766), (92768, 92777), (92784, 92862), (92864, 92873), (92880, 92909), (92928, 92975),
   (92992, 92995), (93008, 93017), (93019, 93025), (93027, 93047), (93053, 93071), (93760, 93846),
   (93952, 94026), (94032, 94032), (94099, 94111), (94176, 94177), (94179, 94179), (94208, 100343),
   (100352, 101589), (101632, 101640), (110576, 110579), (110581, 110587), (110589, 110590), (110592, 110882),
   (110928, 110930), (110948, 110951), (110960, 111355), (113664, 113770), (113776, 113788), (113792, 113800),
   (113808, 113817), (119520, 119539), (119648, 119672), (119808, 119892), (119894, 119964), (119966, 119967),
   (119970, 119970), (119973, 119974), (119977, 119980), (119982, 119993), (119995, 119995), (119997, 120003),
   (120005, 120069), (120071, 120074), (120077, 120084), (120086, 120092), (120094, 120121), (120123, 120126),
   (120128, 120132), (120134, 120134), (120138, 120144), (120146, 120485), (120488, 120512), (120514, 120538),
   (120540, 120570), (120572, 120596), (120598, 120628), (120630, 120654), (120656, 120686), (120688, 120712),
   (120714, 120744), (120746, 120770), (120772, 120779), (120782, 120831), (122624, 122654), (123136, 123180),
   (123191, 123197), (123200, 123209), (123214, 123214), (123536, 123565), (123584, 123627), (123632, 123641),
   (124896, 124902), (124904, 124907), (124909, 124910), (124912, 124926), (124928, 125124), (125127, 125135),
   (125184, 125251), (125259, 125259), (125264, 125273), (126065, 126123), (126125, 126127), (126129, 126132),
   (126209, 126253), (126255, 126269), (126464, 126467), (126469, 126495), (126497, 126498), (126500, 126500),
   (126503, 126503), (126505, 126514), (126516, 126519), (126521, 126521), (126523, 126523), (126530, 126530),
   (126535, 126535), (126537, 126537), (126539, 126539), (126541, 126543), (126545, 126546), (126548, 126548),
   (126551, 126551), (126553, 126553), (126555, 126555), (126557, 126557), (126559, 126559), (126561, 126562),
   (126564, 126564), (126567, 126570), (126572, 126578), (126580, 126583), (126585, 126588), (126590, 126590),
   (126592, 126601), (126603, 126619), (126625, 126627), (126629, 126633), (126635, 126651), (127232, 127244),
   (130032, 130041), (131072, 173791), (173824, 177976), (177984, 178205), (178208, 183969), (183984, 191456),
   (194560, 195101), (196608, 201546)]

/-- Python's `\\w` for `str` patterns: true iff the character's codepoint lies
in one of `wordRanges` — equivalently, iff the character is Unicode
alphanumeric or an underscore. -/
def isWordChar (c : Char) : Bool :=
  wordRanges.any fun r => decide (r.1 ≤ c.toNat) && decide (c.toNat ≤ r.2)

/-! ### Request builder (`generate_image`, app.py lines 122-145) -/

/-- A part of the outgoing wire payload: either `{"text": t}` or
`{"inlineData": {"mimeType": m, "data": d}}`. -/
inductive PartOut where
  | text (t : String)
  | inline (mimeType : String) (base64Data : String)
deriving DecidableEq

/-- The data-URL recogniser of app.py line 135-136: the guard
`img_data.startswith("data:")` followed by
`re.match(r"data:(image/\w+);base64,(.+)", img_data)`.
`re.match` anchors at the start only, and `.` does not match a newline, so the
captured payload is the maximal run of non-newline characters after
`";base64,"` and must be non-empty; trailing content after a newline is
ignored. Returns `(mime_type, base64_data)` on success. -/
def parseDataUrl (s : String) : Option (String × String) :=
  match stripPre ("data:image/".data) s.data with
  | none => none
  | some rest =>
    if rest.takeWhile isWordChar = [] then none
    else
      match stripPre (";base64,".data) (rest.dropWhile isWordChar) with
      | none => none
      | some tail =>
        if tail.takeWhile (fun c => c != '\n') = [] then none
        else some (String.mk (("image/".data) ++ rest.takeWhile isWordChar),
                   String.mk (tail.takeWhile (fun c => c != '\n')))

/-- One iteration of the reference-image loop (app.py lines 134-145): a
recognised data-URL is inserted at position 0 of the parts list; anything else
is skipped. -/
def buildStep (parts : List PartOut) (img : String) : List PartOut :=
  match parseDataUrl img with
  | some (m, d) => PartOut.inline m d :: parts
  | none => parts

/-- The parts list of the built payload (app.py lines 123-145): it starts as
`[{"text": prompt}]` and each reference image is front-inserted in supply
order. -/
def buildParts (prompt : String) (refs : List String) : List PartOut :=
  refs.foldl buildStep [PartOut.text prompt]

/-! ### Model table and submission validation (`generate_image`) -/

/-- The `MODELS` mapping (app.py lines 70-73). -/
def MODELS : List (String × String) :=
  [("nano-banana", "gemini-2.5-flash-image"),
   ("nano-banana-pro", "gemini-3-pro-image-preview")]

/-- `MODELS.get(request.model, MODELS["nano-banana-pro"])` (app.py line 120). -/
def modelFor (sel : String) : String :=
  ((MODELS.lookup sel).getD "gemini-3-pro-image-preview")

/-- A job record as created by `generate_image` (app.py lines 158-167). -/
structure TaskRecord where
  status : String
  progress : Nat
  result_url : Option String
  result_base64 : Option String
  taskError : Option String
  created_at : String
  prompt : String
  modelName : String
deriving DecidableEq

/-- The validation and job-creation phase of `generate_image`
(app.py lines 100-177): reject with HTTP 400 when no credential is set, then
when the prompt strips to empty; otherwise insert a new `processing` record
with progress 10 and return the task id. The store is returned unchanged on
rejection. -/
def submitGenerate (userApiKey prompt modelSel : String)
    (store : List (String × TaskRecord)) (newId now : String) :
    List (String × TaskRecord) × Except Nat String :=
  if userApiKey = "" then (store, Except.error 400)
  else if pyStripIsEmpty prompt then (store, Except.error 400)
  else
    ((newId, { status := "processing", progress := 10, result_url := none,
               result_base64 := none, taskError := none, created_at := now,
               prompt := prompt, modelName := modelFor modelSel }) :: store,
     Except.ok newId)

/-! ### Credential operations (`set_api_key`, `check_api_key`) -/

/-- Response shape of `GET /api/check-key`. -/
structure CheckKeyResp where
  has_key : Bool
  masked_key : String
deriving DecidableEq

/-- `set_api_key` (app.py lines 378-387): overwrites the global credential
(persistence to disk is an external collaborator and not modelled). Returns
the new credential state. -/
def set_api_key (newKey : String) : String := newKey

/-- `check_api_key` (app.py lines 390-400): presence is Python truthiness of
the credential; the mask is first-8 + "..." + last-4 when the length exceeds
12, the fixed placeholder `"***"` otherwise, and `""` when no key is set. -/
def check_api_key (key : String) : CheckKeyResp :=
  { has_key := key != "",
    masked_key :=
      if key != "" then
        if key.length > 12 then pySlice key 8 ++ "..." ++ pyLast key 4
        else "***"
      else "" }

/-! ### Provider response shape (Google native format) -/

/-- An `inlineData` object of a response part; both fields are optional in the
decoded JSON and the code defaults them (`mimeType` to `"image/png"`, `data`
to `""`, app.py lines 246-248). -/
structure InlineData where
  mimeType : Option String
  dataField : Option String
deriving DecidableEq

/-- A decoded response part. The code tests `"inlineData" in part` first and
`"text" in part` only otherwise (app.py lines 243-252), which the two optional
fields reproduce. -/
structure RespPart where
  inlineData : Option InlineData
  text : Option String
deriving DecidableEq

/-- The first candidate's `content.parts` (missing `content`/`parts` decode to
`[]`, app.py line 238). -/
structure Candidate where
  parts : List RespPart
deriving DecidableEq

/-- A decoded provider response: `candidates` plus
`promptFeedback.blockReason` (`""` when absent, app.py lines 226-231). -/
structure GResponse where
  candidates : List Candidate
  blockReason : String
deriving DecidableEq

/-- Stands for Python's `str(data)` of the decoded response dict (app.py line
234); the engine only embeds the first 200 characters of it into a diagnostic
string, and no claim depends on the exact rendering. -/
def reprGResponse (r : GResponse) : String :=
  "\x7bcandidates: " ++ Nat.repr r.candidates.length ++
    ", blockReason: " ++ r.blockReason ++ "\x7d"

/-- The image string built from an inline part (app.py lines 246-249). -/
def mkImage (d : InlineData) : String :=
  "data:" ++ d.mimeType.getD "image/png" ++ ";base64," ++ d.dataField.getD ""

/-- The part-scanning loop of app.py lines 240-252: each inline part
overwrites `image_data`; text parts accumulate in order. -/
def scanLoop : List RespPart → Option String → List String →
    Option String × List String
  | [], img, txts => (img, txts)
  | p :: rest, img, txts =>
    match p.inlineData with
    | some d => scanLoop rest (some (mkImage d)) txts
    | none =>
      match p.text with
      | some t => scanLoop rest img (txts ++ [t])
      | none => scanLoop rest img txts

/-- The image extracted from a parts list (`image_data` after the loop). -/
def scanImage (ps : List RespPart) : Option String := (scanLoop ps none []).1

/-! ### Generation engine (`_execute_generation`, app.py lines 180-277) -/

/-- What the network did at one endpoint. `exn` covers any transport/protocol
exception (possibly after some chunks were already streamed); `httpErr` is a
non-200 status with its drained error body; `badJson` is a 200 response whose
accumulated body fails to decode as JSON (the `json.loads` exception is caught
by the same handler); `ok` is a 200 response that decodes to `resp`, streamed
as chunks of the given byte sizes. -/
inductive Outcome where
  | exn (chunks : List Nat) (excName excMsg : String)
  | httpErr (status : Nat) (body : String)
  | badJson (chunks : List Nat) (msg : String)
  | ok (chunks : List Nat) (resp : GResponse)

/-- Progress after `bytes` accumulated body bytes:
`min(30 + int(len(content) / 50000 * 60), 90)` (app.py line 216), with the
float truncation modelled as the exact rational floor. -/
def streamProgress (bytes : Nat) : Nat := min (30 + bytes * 60 / 50000) 90

/-- Cumulative byte counts after each streamed chunk. -/
def cumSums : List Nat → Nat → List Nat
  | [], _ => []
  | c :: t, acc => (acc + c) :: cumSums t (acc + c)

/-- The progress values written during streaming, one per chunk. -/
def streamTrace (chunks : List Nat) : List Nat :=
  (cumSums chunks 0).map streamProgress

/-- Progress writes of an attempt that consumed the whole stream: 30 at
attempt start (app.py line 194), per-chunk updates, then 95 after the stream
ends (line 220). -/
def basTrace (chunks : List Nat) : List Nat :=
  30 :: (streamTrace chunks ++ [95])

/-- Progress writes of an attempt cut short by an exception: 30, then the
updates for whatever chunks arrived. -/
def exnTrace (chunks : List Nat) : List Nat := 30 :: streamTrace chunks

/-- Result of one endpoint attempt: the terminal write on success, or the
recorded `last_error` on failure, together with the progress writes made. -/
inductive AttemptRes where
  | success (image : String) (thinking : Option String) (trace : List Nat)
  | failure (err : String) (trace : List Nat)
deriving DecidableEq

/-- Progress writes of an attempt. -/
def AttemptRes.trace : AttemptRes → List Nat
  | .success _ _ tr => tr
  | .failure _ tr => tr

/-- Classification of a decoded 200 response (app.py lines 226-267): no
candidates resolves to safety-block or empty; otherwise the first candidate's
parts are scanned, an image part completes the attempt (progress 100 written
last), and a text-only or partless candidate records
`"响应中没有图像数据"`-style diagnostics. -/
def attemptOk (chunks : List Nat) (resp : GResponse) : AttemptRes :=
  match resp.candidates with
  | [] =>
    if resp.blockReason ≠ "" then
      AttemptRes.failure ("内容被安全策略阻止: " ++ resp.blockReason) (basTrace chunks)
    else
      AttemptRes.failure
        ("未生成任何结果 (响应: " ++ pySlice (reprGResponse resp) 200 ++ ")")
        (basTrace chunks)
  | c :: _ =>
    match (scanLoop c.parts none []).1 with
    | some img =>
      AttemptRes.success img
        (if (scanLoop c.parts none []).2 ≠ [] then
          some (String.intercalate "\n" (scanLoop c.parts none []).2)
         else none)
        (basTrace chunks ++ [100])
    | none =>
      AttemptRes.failure
        ("响应中没有图像数据" ++
          (match (scanLoop c.parts none []).2 with
           | [] => ""
           | t :: _ => " (模型回复: " ++ pySlice t 100 ++ "...)"))
        (basTrace chunks)

/-- One endpoint attempt of the failover loop (app.py lines 189-272). -/
def runAttempt : Outcome → AttemptRes
  | Outcome.exn chunks excName excMsg =>
    AttemptRes.failure (excName ++ ": " ++ excMsg) (exnTrace chunks)
  | Outcome.httpErr status body =>
    AttemptRes.failure ("API错误 (" ++ Nat.repr status ++ "): " ++ pySlice body 300) [30]
  | Outcome.badJson chunks msg =>
    AttemptRes.failure ("JSONDecodeError: " ++ msg) (basTrace chunks)
  | Outcome.ok chunks resp => attemptOk chunks resp

/-- Progress writes of an attempt, by outcome. -/
def attemptTrace (o : Outcome) : List Nat := (runAttempt o).trace

/-- True when the attempt does not succeed (any per-attempt error kind). -/
def isFailureO (o : Outcome) : Bool :=
  match runAttempt o with
  | AttemptRes.failure _ _ => true
  | AttemptRes.success _ _ _ => false

/-- The `last_error` an attempt records (meaningful when `isFailureO`). -/
def errOf (o : Outcome) : String :=
  match runAttempt o with
  | AttemptRes.failure e _ => e
  | AttemptRes.success _ _ _ => ""

/-- The job fields the engine writes (status/progress/result/error/thinking;
the record's other fields are set at creation and never touched by the
engine). -/
structure EngineTask where
  status : String
  progress : Nat
  result_base64 : Option String
  jobError : Option String
  thinking : Option String
deriving DecidableEq

/-- Outcome of a whole engine run: the terminal job fields, the number of
endpoints actually attempted, and every progress write in order. -/
structure RunResult where
  task : EngineTask
  attempts : Nat
  trace : List Nat
deriving DecidableEq

/-- The failover loop (app.py lines 186-277): first success returns with
status `completed` and progress 100; a failed attempt threads its message as
`last_error` and moves on; exhaustion writes status `failed` and
`last_error or "所有主机都失败"`, leaving progress at its last value. -/
def runFrom : List Outcome → Option String → Nat → RunResult
  | [], lastErr, cur =>
    { task := { status := "failed", progress := cur, result_base64 := none,
                jobError := some (pyOr lastErr "所有主机都失败"), thinking := none },
      attempts := 0, trace := [] }
  | o :: rest, lastErr, cur =>
    match runAttempt o with
    | AttemptRes.success img thk tr =>
      { task := { status := "completed", progress := 100, result_base64 := some img,
                  jobError := none, thinking := thk },
        attempts := 1, trace := tr }
    | AttemptRes.failure e tr =>
      let r := runFrom rest (some e) (tr.getLastD cur)
      { task := r.task, attempts := r.attempts + 1, trace := tr ++ r.trace }

/-- A full engine run over the configured endpoints' outcomes, starting from
the freshly created record (progress 10, no recorded error). -/
def engineRun (outs : List Outcome) : RunResult := runFrom outs none 10

/-- The progress values observable by pollers, from creation (10) through
every engine write. -/
def observedProgress (outs : List Outcome) : List Nat :=
  10 :: (engineRun outs).trace

/-- Bool test that a list of naturals is non-decreasing. -/
def nonDecr : List Nat → Bool
  | [] => true
  | [_] => true
  | a :: b :: t => decide (a ≤ b) && nonDecr (b :: t)

/-! ### Credential verification (`verify_api_key`, app.py lines 403-434) -/

/-- The configured mirror endpoints, highest priority first (app.py 46-49). -/
def GOOGLE_API_HOSTS : List String :=
  ["https://api.zzz-api.top/google", "https://api.zhizengzeng.com/google"]

/-- What the network returns for one probe: an exception or a status+body. -/
inductive NetResp where
  | exn (msg : String)
  | resp (status : Nat) (text : String)
deriving DecidableEq

/-- Response shape of `POST /api/verify-key`. -/
structure VerifyResult where
  valid : Bool
  message : String
deriving DecidableEq

/-- The single URL `verify_api_key` probes (app.py line 419): always the first
configured host. -/
def verifyEndpoint : String :=
  (GOOGLE_API_HOSTS.headD "") ++ "/v1beta/models/gemini-2.0-flash:generateContent"

/-- `verify_api_key` (app.py lines 403-434), as a function of the network
behaviour `net` (URL to outcome): 200 is valid; 401/403 is invalid; any other
status reports a truncated body; an exception reports a network error. All
paths return a value, never raise. -/
def verify_api_key (net : String → NetResp) : VerifyResult :=
  match net verifyEndpoint with
  | NetResp.exn msg => { valid := false, message := "网络错误: " ++ msg }
  | NetResp.resp status text =>
    if status = 200 then { valid := true, message := "API密钥有效" }
    else if status = 401 || status = 403 then
      { valid := false, message := "API密钥无效或已过期" }
    else { valid := false, message := "验证失败: " ++ pySlice text 200 }

/-! ### Helper lemmas -/

lemma ne_empty_of_data (s : String) (h : s.data ≠ []) : s ≠ "" := by
  intro he
  subst he
  exact h rfl

lemma stripPre_some_eq : ∀ (p s r : List Char), stripPre p s = some r → s = p ++ r := by
  intro p
  induction p with
  | nil => intro s r h; simpa [stripPre] using h
  | cons c cs ih =>
    intro s r h
    cases s with
    | nil => simp [stripPre] at h
    | cons b bs =>
      rw [stripPre] at h
      split at h
      · next heq => subst heq; simpa using ih bs r h
      · exact absurd h (by simp)

lemma stripPre_app : ∀ (p r : List Char), stripPre p (p ++ r) = some r := by
  intro p
  induction p with
  | nil => intro r; rfl
  | cons c cs ih => intro r; simp [stripPre, ih]

lemma foldl_buildStep_suffix (refs : List String) (acc : List PartOut) :
    ∃ l, refs.foldl buildStep acc = l ++ acc := by
  induction refs generalizing acc with
  | nil => exact ⟨[], rfl⟩
  | cons r rest ih =>
    rw [List.foldl_cons]
    cases h : parseDataUrl r with
    | none =>
      have hb : buildStep acc r = acc := by simp [buildStep, h]
      rw [hb]; exact ih acc
    | some md =>
      obtain ⟨m, d⟩ := md
      have hb : buildStep acc r = PartOut.inline m d :: acc := by simp [buildStep, h]
      rw [hb]
      obtain ⟨l, hl⟩ := ih (PartOut.inline m d :: acc)
      refine ⟨l ++ [PartOut.inline m d], ?_⟩
      rw [hl, List.append_assoc]
      rfl

/-! ### C2 -/

/-- C2: for reference images supplied in order [A, B] (each a well-formed
image data-URL, as recognised by the builder) and prompt text T, the built
parts list is exactly [B as inline part, A as inline part, T as text part]:
images in reverse supply order, text always present and always last (for any
reference list). -/
theorem c2_request_builder (A B T mA dA mB dB : String)
    (hA : parseDataUrl A = some (mA, dA)) (hB : parseDataUrl B = some (mB, dB)) :
    buildParts T [A, B] =
      [PartOut.inline mB dB, PartOut.inline mA dA, PartOut.text T] ∧
    ∀ refs : List String, (buildParts T refs).getLast? = some (PartOut.text T) := by
  constructor
  · simp [buildParts, buildStep, hA, hB]
  · intro refs
    obtain ⟨l, hl⟩ := foldl_buildStep_suffix refs [PartOut.text T]
    rw [buildParts, hl, List.getLast?_concat]

/-- Witness for C2 at concrete data-URLs. -/
theorem c2_request_builder_witness :
    buildParts "a cat" ["data:image/png;base64,AAAA", "data:image/jpeg;base64,BBBB"] =
      [PartOut.inline "image/jpeg" "BBBB", PartOut.inline "image/png" "AAAA",
       PartOut.text "a cat"] :=
  (c2_request_builder "data:image/png;base64,AAAA" "data:image/jpeg;base64,BBBB"
    "a cat" "image/png" "AAAA" "image/jpeg" "BBBB" (by decide) (by decide)).1

/-! ### C5 -/

/-- C5: a submission with an empty or whitespace-only prompt, or made while no
credential is set, is rejected synchronously with HTTP 400 and the job store
is unchanged — no job record is created. -/
theorem c5_submit_rejected (key prompt modelSel : String)
    (store : List (String × TaskRecord)) (newId now : String)
    (h : key = "" ∨ pyStripIsEmpty prompt = true) :
    (submitGenerate key prompt modelSel store newId now).1 = store ∧
    (submitGenerate key prompt modelSel store newId now).2 = Except.error 400 := by
  rcases h with h | h
  · subst h; simp [submitGenerate]
  · by_cases hk : key = ""
    · subst hk; simp [submitGenerate]
    · simp [submitGenerate, hk, h]

/-- Witness for C5 at a whitespace-only prompt. -/
theorem c5_submit_rejected_witness :
    (submitGenerate "sk-123" " \t " "nano-banana" [] "id1" "t0").1 = [] ∧
    (submitGenerate "sk-123" " \t " "nano-banana" [] "id1" "t0").2 =
      Except.error 400 :=
  c5_submit_rejected "sk-123" " \t " "nano-banana" [] "id1" "t0" (Or.inr (by decide))

lemma string_length_data (s : String) : s.length = s.data.length := rfl

lemma startsWithL_length (sub s : List Char) (h : startsWithL sub s = true) :
    sub.length ≤ s.length := by
  rw [startsWithL] at h
  cases hs : stripPre sub s with
  | none => rw [hs] at h; simp at h
  | some r =>
    have := stripPre_some_eq sub s r hs
    subst this
    simp

lemma isSubList_length (sub : List Char) :
    ∀ s : List Char, isSubList sub s = true → sub.length ≤ s.length := by
  intro s
  induction s with
  | nil =>
    intro h
    rw [isSubList, List.isEmpty_iff] at h
    simp [h]
  | cons c t ih =>
    intro h
    rw [isSubList, Bool.or_eq_true] at h
    rcases h with h | h
    · exact startsWithL_length _ _ h
    · exact le_trans (ih h) (by simp)

/-! ### C6 -/

/-- C6 counterexample: the claim fails at two explicit inputs. For the
13-character secret `"............."`, set-then-check reports presence but the
masked value (15 dots) contains the full raw secret as a substring; and for
the empty secret, set-then-check reports presence=false. -/
theorem c6_credential_counterexample :
    (check_api_key (set_api_key ".............")).has_key = true ∧
    (".............".length > 12) ∧
    pyIn "............." (check_api_key (set_api_key ".............")).masked_key
      = true ∧
    (check_api_key (set_api_key "")).has_key = false :=
  ⟨by decide, by decide, by decide, by decide⟩

/-- C6 (amended): for every non-empty secret, set-credential then
check-credential reports presence=true; when the secret's length exceeds 12
the masked value is first-8 + "..." + last-4 — which cannot contain the raw
secret once the length exceeds 15 (the mask is 15 characters long) — and when
the length is between 1 and 12 the fixed placeholder "***" is returned. -/
theorem c6_credential_roundtrip_amended (secret : String) (h : secret ≠ "") :
    (check_api_key (set_api_key secret)).has_key = true ∧
    (secret.length > 12 →
      (check_api_key (set_api_key secret)).masked_key =
        pySlice secret 8 ++ "..." ++ pyLast secret 4) ∧
    (secret.length > 15 →
      pyIn secret (check_api_key (set_api_key secret)).masked_key = false) ∧
    (secret.length ≤ 12 →
      (check_api_key (set_api_key secret)).masked_key = "***") := by
  have hb : (secret != "") = true := by simp [bne_iff_ne, h]
  refine ⟨by simp [check_api_key, set_api_key, hb], ?_, ?_, ?_⟩
  · intro hlen
    simp [check_api_key, set_api_key, hb, hlen]
  · intro hlen
    have h12 : secret.length > 12 := by omega
    have hmask : (check_api_key (set_api_key secret)).masked_key =
        pySlice secret 8 ++ "..." ++ pyLast secret 4 := by
      simp [check_api_key, set_api_key, hb, h12]
    rw [hmask]
    by_contra hcon
    rw [Bool.not_eq_false] at hcon
    have hle := isSubList_length secret.data _ hcon
    rw [String.data_append, String.data_append] at hle
    simp only [pySlice, pyLast, List.length_append] at hle
    rw [string_length_data] at hlen
    simp [List.length_take, List.length_drop] at hle
    have hds : secret.data.length = secret.length := rfl
    omega
  · intro hlen
    have h12 : ¬ secret.length > 12 := by omega
    simp [check_api_key, set_api_key, hb, h12]

/-- Witness for C6 (amended) at a 16-character secret. -/
theorem c6_credential_roundtrip_amended_witness :
    (check_api_key (set_api_key "abcdefghijklmnop")).has_key = true ∧
    pyIn "abcdefghijklmnop"
      (check_api_key (set_api_key "abcdefghijklmnop")).masked_key = false :=
  ⟨(c6_credential_roundtrip_amended "abcdefghijklmnop" (by decide)).1,
   (c6_credential_roundtrip_amended "abcdefghijklmnop" (by decide)).2.2.1 (by decide)⟩

lemma scanLoop_fst (ps : List RespPart) : ∀ (img : Option String) (txts : List String),
    (scanLoop ps img txts).1 =
      match (ps.filterMap RespPart.inlineData).getLast? with
      | some d => some (mkImage d)
      | none => img := by
  induction ps with
  | nil => intro img txts; rfl
  | cons p rest ih =>
    intro img txts
    cases hp : p.inlineData with
    | some d =>
      rw [scanLoop, hp]
      rw [ih]
      rw [List.filterMap_cons, hp, List.getLast?_cons]
      cases (rest.filterMap RespPart.inlineData).getLast? <;> simp
    | none =>
      rw [List.filterMap_cons, hp]
      cases ht : p.text with
      | some t => rw [scanLoop, hp, ht, ih]
      | none => rw [scanLoop, hp, ht, ih]

/-! ### C9 -/

/-- C9: when a candidate's parts contain several inline-binary parts, the
stored image is built from the last one (each later inline part overwrites the
earlier), and an inline part with a missing or empty data field still
classifies as an image result: the job completes with a result of the form
`data:<mime>;base64,` with empty payload. -/
theorem c9_last_inline_wins (ps : List RespPart) (m : Option String) (chunks : List Nat) :
    scanImage ps = ((ps.filterMap RespPart.inlineData).getLast?).map mkImage ∧
    mkImage { mimeType := m, dataField := none } =
      "data:" ++ m.getD "image/png" ++ ";base64," ∧
    mkImage { mimeType := m, dataField := some "" } =
      "data:" ++ m.getD "image/png" ++ ";base64," ∧
    (engineRun [Outcome.ok chunks
        { candidates :=
            [{ parts := [{ inlineData := some { mimeType := m, dataField := none },
                           text := none }] }],
          blockReason := "" }]).task.status = "completed" ∧
    (engineRun [Outcome.ok chunks
        { candidates :=
            [{ parts := [{ inlineData := some { mimeType := m, dataField := none },
                           text := none }] }],
          blockReason := "" }]).task.result_base64 =
      some ("data:" ++ m.getD "image/png" ++ ";base64,") := by
  refine ⟨?_, ?_, ?_, ?_, ?_⟩
  · rw [scanImage, scanLoop_fst]
    cases (ps.filterMap RespPart.inlineData).getLast? <;> simp
  · simp [mkImage]
  · simp [mkImage]
  · simp [engineRun, runFrom, runAttempt, attemptOk, scanLoop, mkImage]
  · simp [engineRun, runFrom, runAttempt, attemptOk, scanLoop, mkImage]

/-! ### C10 -/

/-- C10: verify-credential always returns a {valid, message} value (any
network exception is absorbed into the result), depends only on what the
single highest-priority endpoint answers (no failover to later mirrors), and
reports valid=true iff that endpoint answers HTTP 200. -/
theorem c10_verify_key (net net2 : String → NetResp)
    (h : net verifyEndpoint = net2 verifyEndpoint) :
    verify_api_key net = verify_api_key net2 ∧
    ((verify_api_key net).valid = true ↔
      ∃ t, net verifyEndpoint = NetResp.resp 200 t) := by
  constructor
  · rw [verify_api_key, verify_api_key, h]
  · rw [verify_api_key]
    cases hn : net verifyEndpoint with
    | exn msg => simp [hn]
    | resp status text =>
      by_cases h200 : status = 200
      · subst h200
        simp [hn]
      · simp only [hn, NetResp.resp.injEq, if_neg h200]
        constructor
        · intro hv
          by_cases h41 : status = 401 || status = 403
          · rw [if_pos h41] at hv; simp at hv
          · rw [if_neg h41] at hv; simp at hv
        · rintro ⟨t, ht, -⟩
          exact absurd ht h200

/-- Witness for C10 at a network that answers 200 on the first host. -/
theorem c10_verify_key_witness :
    (verify_api_key fun _ => NetResp.resp 200 "ok").valid = true :=
  ((c10_verify_key (fun _ => NetResp.resp 200 "ok") (fun _ => NetResp.resp 200 "ok")
    rfl).2).mpr ⟨"ok", rfl⟩

lemma sp_zero : streamProgress 0 = 30 := by decide

lemma sp_le_90 (b : Nat) : streamProgress b ≤ 90 := min_le_right _ _

lemma sp_mono {a b : Nat} (h : a ≤ b) : streamProgress a ≤ streamProgress b := by
  unfold streamProgress
  have hd : a * 60 / 50000 ≤ b * 60 / 50000 :=
    Nat.div_le_div_right (Nat.mul_le_mul h (le_refl 60))
  exact min_le_min (by omega) le_rfl

lemma mem_streamTrace_le90 (chunks : List Nat) (x : Nat)
    (hx : x ∈ streamTrace chunks) : x ≤ 90 := by
  rw [streamTrace] at hx
  obtain ⟨b, -, rfl⟩ := List.mem_map.mp hx
  exact sp_le_90 b

lemma nonDecr_cons_of_head (a : Nat) (l : List Nat) (hl : nonDecr l = true)
    (hh : ∀ b, l.head? = some b → a ≤ b) : nonDecr (a :: l) = true := by
  cases l with
  | nil => rfl
  | cons b t =>
    rw [nonDecr, Bool.and_eq_true]
    exact ⟨decide_eq_true (hh b rfl), hl⟩

lemma nonDecr_append_big : ∀ (l : List Nat) (x : Nat), nonDecr l = true →
    (∀ a ∈ l, a ≤ x) → nonDecr (l ++ [x]) = true := by
  intro l
  induction l with
  | nil => intro x _ _; rfl
  | cons a t ih =>
    intro x hl hx
    cases t with
    | nil =>
      show nonDecr [a, x] = true
      simp only [nonDecr, Bool.and_eq_true, decide_eq_true_eq]
      exact ⟨hx a (by simp), trivial⟩
    | cons b t2 =>
      have hab : (decide (a ≤ b) && nonDecr (b :: t2)) = true := hl
      rw [Bool.and_eq_true] at hab
      show nonDecr (a :: b :: (t2 ++ [x])) = true
      rw [nonDecr, Bool.and_eq_true]
      refine ⟨hab.1, ?_⟩
      exact ih x hab.2 (fun y hy => hx y (List.mem_cons_of_mem a hy))

lemma nonDecr_sp_cumSums : ∀ (chunks : List Nat) (acc : Nat),
    nonDecr (streamProgress acc :: (cumSums chunks acc).map streamProgress) = true := by
  intro chunks
  induction chunks with
  | nil => intro acc; rfl
  | cons c t ih =>
    intro acc
    rw [cumSums, List.map_cons, nonDecr, Bool.and_eq_true]
    exact ⟨decide_eq_true (sp_mono (Nat.le_add_right acc c)), ih (acc + c)⟩

lemma nonDecr_30_streamTrace (chunks : List Nat) :
    nonDecr (30 :: streamTrace chunks) = true := by
  have h := nonDecr_sp_cumSums chunks 0
  rw [sp_zero] at h
  exact h

lemma nonDecr_basTrace (chunks : List Nat) : nonDecr (basTrace chunks) = true := by
  rw [basTrace]
  have hsplit : 30 :: (streamTrace chunks ++ [95]) =
      (30 :: streamTrace chunks) ++ [95] := rfl
  rw [hsplit]
  apply nonDecr_append_big _ _ (nonDecr_30_streamTrace chunks)
  intro a ha
  rcases List.mem_cons.mp ha with rfl | ha
  · omega
  · exact le_trans (mem_streamTrace_le90 chunks a ha) (by omega)

lemma nonDecr_basTrace100 (chunks : List Nat) :
    nonDecr (basTrace chunks ++ [100]) = true := by
  apply nonDecr_append_big _ _ (nonDecr_basTrace chunks)
  intro a ha
  rw [basTrace] at ha
  rcases List.mem_cons.mp ha with rfl | ha
  · omega
  · rcases List.mem_append.mp ha with ha | ha
    · exact le_trans (mem_streamTrace_le90 chunks a ha) (by omega)
    · simp at ha; omega

lemma ok_trace_shape (chunks : List Nat) (resp : GResponse) :
    (attemptOk chunks resp).trace = basTrace chunks ∨
    (attemptOk chunks resp).trace = basTrace chunks ++ [100] := by
  rw [attemptOk]
  split
  · split
    · left; rfl
    · left; rfl
  · split
    · right; rfl
    · left; rfl

lemma attemptOk_failure_trace (chunks : List Nat) (resp : GResponse)
    (e : String) (tr : List Nat)
    (h : attemptOk chunks resp = AttemptRes.failure e tr) : tr = basTrace chunks := by
  rw [attemptOk] at h
  split at h
  · split at h
    · simpa using (congrArg AttemptRes.trace h).symm
    · simpa using (congrArg AttemptRes.trace h).symm
  · split at h
    · exact absurd h (by simp)
    · simpa using (congrArg AttemptRes.trace h).symm

lemma failure_trace_shape (o : Outcome) (e : String) (tr : List Nat)
    (h : runAttempt o = AttemptRes.failure e tr) :
    tr = [30] ∨ (∃ cs, tr = exnTrace cs) ∨ (∃ cs, tr = basTrace cs) := by
  cases o with
  | exn cs n m =>
    simp only [runAttempt, AttemptRes.failure.injEq] at h
    exact Or.inr (Or.inl ⟨cs, h.2.symm⟩)
  | httpErr s b =>
    simp only [runAttempt, AttemptRes.failure.injEq] at h
    exact Or.inl h.2.symm
  | badJson cs m =>
    simp only [runAttempt, AttemptRes.failure.injEq] at h
    exact Or.inr (Or.inr ⟨cs, h.2.symm⟩)
  | ok cs resp =>
    exact Or.inr (Or.inr ⟨cs, attemptOk_failure_trace cs resp e tr h⟩)

lemma getLastD_le95 : ∀ (l : List Nat) (d : Nat), (∀ x ∈ l, x ≤ 95) → d ≤ 95 →
    l.getLastD d ≤ 95 := by
  intro l
  induction l with
  | nil => intro d _ hd; simpa using hd
  | cons a t ih =>
    intro d hl hd
    rw [List.getLastD_cons]
    exact ih a (fun x hx => hl x (List.mem_cons_of_mem a hx))
      (hl a (List.mem_cons_self a t))

lemma failure_getLastD_le95 (o : Outcome) (e : String) (tr : List Nat)
    (h : runAttempt o = AttemptRes.failure e tr) (cur : Nat) (hc : cur ≤ 95) :
    tr.getLastD cur ≤ 95 := by
  have hmem : ∀ x ∈ tr, x ≤ 95 := by
    rcases failure_trace_shape o e tr h with rfl | ⟨cs, rfl⟩ | ⟨cs, rfl⟩
    · intro x hx; simp at hx; omega
    · intro x hx
      rw [exnTrace] at hx
      rcases List.mem_cons.mp hx with rfl | hx
      · omega
      · exact le_trans (mem_streamTrace_le90 cs x hx) (by omega)
    · intro x hx
      rw [basTrace] at hx
      rcases List.mem_cons.mp hx with rfl | hx
      · omega
      · rcases List.mem_append.mp hx with hx | hx
        · exact le_trans (mem_streamTrace_le90 cs x hx) (by omega)
        · simp at hx; omega
  exact getLastD_le95 tr cur hmem hc

lemma runFrom_completed_iff (outs : List Outcome) :
    ∀ (e : Option String) (cur : Nat), cur ≤ 95 →
      ((runFrom outs e cur).task.status = "completed" ↔
        (runFrom outs e cur).task.progress = 100) := by
  induction outs with
  | nil =>
    intro e cur hc
    simp only [runFrom]
    constructor
    · intro hcontra; exact absurd hcontra (by decide)
    · intro hcontra; omega
  | cons o rest ih =>
    intro e cur hc
    cases hr : runAttempt o with
    | success img thk tr => simp [runFrom, hr]
    | failure e' tr =>
      simp only [runFrom, hr]
      exact ih (some e') (tr.getLastD cur) (failure_getLastD_le95 o e' tr hr cur hc)

lemma attemptTrace_head (o : Outcome) : (attemptTrace o).head? = some 30 := by
  rw [attemptTrace]
  cases o with
  | exn cs n m => rfl
  | httpErr s b => rfl
  | badJson cs m => rfl
  | ok cs resp =>
    show (attemptOk cs resp).trace.head? = some 30
    rcases ok_trace_shape cs resp with h | h <;> rw [h] <;> simp [basTrace]

lemma nonDecr_attempt10 (o : Outcome) : nonDecr (10 :: attemptTrace o) = true := by
  apply nonDecr_cons_of_head
  · rw [attemptTrace]
    cases o with
    | exn cs n m =>
      show nonDecr (exnTrace cs) = true
      rw [exnTrace]; exact nonDecr_30_streamTrace cs
    | httpErr s b => rfl
    | badJson cs m =>
      show nonDecr (basTrace cs) = true
      exact nonDecr_basTrace cs
    | ok cs resp =>
      show nonDecr (attemptOk cs resp).trace = true
      rcases ok_trace_shape cs resp with h | h <;> rw [h]
      · exact nonDecr_basTrace cs
      · exact nonDecr_basTrace100 cs
  · intro b hb
    rw [attemptTrace_head o] at hb
    injection hb with hb
    omega

/-! ### C7 -/

/-- C7: during streaming, progress after each chunk is
`min(30 + floor(bytes_so_far / 50000 * 60), 90)`: it never exceeds 90 for any
byte count, and the 95 write happens only once, after the whole stream, before
any terminal write. -/
theorem c7_streaming_progress (bytes : Nat) (chunks : List Nat) (resp : GResponse) :
    streamProgress bytes = min (30 + bytes * 60 / 50000) 90 ∧
    streamProgress bytes ≤ 90 ∧
    ((streamTrace chunks).all fun p => decide (p ≤ 90)) = true ∧
    ((runAttempt (Outcome.ok chunks resp)).trace =
        30 :: (streamTrace chunks ++ [95]) ∨
     (runAttempt (Outcome.ok chunks resp)).trace =
        30 :: (streamTrace chunks ++ [95, 100])) := by
  refine ⟨rfl, sp_le_90 bytes, ?_, ?_⟩
  · rw [List.all_eq_true]
    intro p hp
    exact decide_eq_true (mem_streamTrace_le90 chunks p hp)
  · have hra : (runAttempt (Outcome.ok chunks resp)).trace =
        (attemptOk chunks resp).trace := rfl
    rcases ok_trace_shape chunks resp with h | h
    · left; rw [hra, h, basTrace]
    · right
      rw [hra, h, basTrace]
      simp

/-! ### C1 -/

/-- C1 counterexample: with a first endpoint that answers 200 with a text-only
body (so the attempt streams to completion, writing progress 95) and a second
endpoint that fails, the observed progress sequence is [10, 30, 31, 95, 30]:
it decreases from 95 to 30 when the engine moves to the next endpoint attempt,
refuting the claim that progress is non-decreasing over observed polls. -/
theorem c1_progress_counterexample :
    observedProgress
      [Outcome.ok [1000]
        { candidates := [{ parts := [{ inlineData := none, text := some "hi" }] }],
          blockReason := "" },
       Outcome.exn [] "ConnectError" "x"] = [10, 30, 31, 95, 30] ∧
    nonDecr (observedProgress
      [Outcome.ok [1000]
        { candidates := [{ parts := [{ inlineData := none, text := some "hi" }] }],
          blockReason := "" },
       Outcome.exn [] "ConnectError" "x"]) = false ∧
    (engineRun
      [Outcome.ok [1000]
        { candidates := [{ parts := [{ inlineData := none, text := some "hi" }] }],
          blockReason := "" },
       Outcome.exn [] "ConnectError" "x"]).task.status = "failed" :=
  ⟨by decide, by decide, by decide⟩

/-- C1 (amended): progress is non-decreasing within each endpoint attempt
(every attempt's writes start at 30, above the creation value 10, and never
decrease), but moving to the next endpoint attempt resets progress to 30,
which can be a decrease; and the terminal progress equals 100 iff the
terminal status is completed. -/
theorem c1_progress_amended (outs : List Outcome) :
    (outs.all fun o =>
      nonDecr (10 :: attemptTrace o) && ((attemptTrace o).head? == some 30)) = true ∧
    ((engineRun outs).task.status = "completed" ↔
      (engineRun outs).task.progress = 100) := by
  constructor
  · rw [List.all_eq_true]
    intro o ho
    rw [Bool.and_eq_true]
    refine ⟨nonDecr_attempt10 o, ?_⟩
    rw [attemptTrace_head o]
    rfl
  · exact runFrom_completed_iff outs none 10 (by omega)

lemma isFailureO_failure (p : Outcome) (hp : isFailureO p = true) :
    ∃ e tr, runAttempt p = AttemptRes.failure e tr := by
  cases hr : runAttempt p with
  | success a b c => simp [isFailureO, hr] at hp
  | failure e tr => exact ⟨e, tr, rfl⟩

lemma runFrom_pre_fail (o : Outcome) (post : List Outcome)
    (img : String) (thk : Option String) (tr : List Nat)
    (ho : runAttempt o = AttemptRes.success img thk tr) :
    ∀ (pre : List Outcome), (∀ p ∈ pre, isFailureO p = true) →
    ∀ (e : Option String) (cur : Nat),
      (runFrom (pre ++ o :: post) e cur).task =
        { status := "completed", progress := 100, result_base64 := some img,
          jobError := none, thinking := thk } ∧
      (runFrom (pre ++ o :: post) e cur).attempts = pre.length + 1 := by
  intro pre
  induction pre with
  | nil =>
    intro _ e cur
    simp [runFrom, ho]
  | cons p rest ih =>
    intro hpre e cur
    have hp := hpre p (List.mem_cons_self p rest)
    cases hr : runAttempt p with
    | success a b c => simp [isFailureO, hr] at hp
    | failure e' tr' =>
      rw [List.cons_append]
      simp only [runFrom, hr]
      have hrec := ih (fun q hq => hpre q (List.mem_cons_of_mem p hq))
        (some e') (tr'.getLastD cur)
      exact ⟨hrec.1, by rw [hrec.2]; simp⟩

/-! ### C3 -/

/-- C3: when the first M endpoint attempts fail (for any per-attempt error
kind) and attempt M+1 classifies as an image result, the job ends completed
with progress 100 and the image from attempt M+1 as its result, and exactly
M+1 endpoints are attempted — none after the success. -/
theorem c3_first_success_wins (pre : List Outcome) (o : Outcome) (post : List Outcome)
    (img : String) (thk : Option String) (tr : List Nat)
    (hpre : ∀ p ∈ pre, isFailureO p = true)
    (ho : runAttempt o = AttemptRes.success img thk tr) :
    (engineRun (pre ++ o :: post)).task.status = "completed" ∧
    (engineRun (pre ++ o :: post)).task.progress = 100 ∧
    (engineRun (pre ++ o :: post)).task.result_base64 = some img ∧
    (engineRun (pre ++ o :: post)).attempts = pre.length + 1 := by
  have h := runFrom_pre_fail o post img thk tr ho pre hpre none 10
  exact ⟨by rw [engineRun, h.1], by rw [engineRun, h.1], by rw [engineRun, h.1], h.2⟩

/-- A concrete successful outcome: a 200 response whose single candidate has
one inline png part. -/
def okImageOutcome : Outcome :=
  Outcome.ok [] { candidates := [{ parts := [{ inlineData := some { mimeType := some "image/png", dataField := some "QUJD" }, text := none }] }], blockReason := "" }

/-- Witness for C3: one failing endpoint, then an image success, then an
untouched further endpoint; two attempts consumed. -/
theorem c3_first_success_wins_witness :
    (engineRun [Outcome.exn [] "ConnectError" "boom", okImageOutcome,
      Outcome.httpErr 500 "oops"]).task.status = "completed" ∧
    (engineRun [Outcome.exn [] "ConnectError" "boom", okImageOutcome,
      Outcome.httpErr 500 "oops"]).task.result_base64 =
      some "data:image/png;base64,QUJD" ∧
    (engineRun [Outcome.exn [] "ConnectError" "boom", okImageOutcome,
      Outcome.httpErr 500 "oops"]).attempts = 2 := by
  have h := c3_first_success_wins [Outcome.exn [] "ConnectError" "boom"]
    okImageOutcome [Outcome.httpErr 500 "oops"]
    "data:image/png;base64,QUJD" none [30, 95, 100]
    (by intro p hp; rw [List.mem_singleton] at hp; subst hp; decide)
    (by decide)
  exact ⟨h.1, h.2.2.1, h.2.2.2⟩

/-! ### C4 -/

lemma mem_of_getLast?_eq {α : Type} : ∀ (l : List α) (a : α),
    l.getLast? = some a → a ∈ l := by
  intro l
  induction l with
  | nil => intro a h; simp at h
  | cons b t ih =>
    intro a h
    cases t with
    | nil =>
      rw [List.getLast?_singleton] at h
      injection h with h
      subst h
      exact List.mem_cons_self _ _
    | cons c t2 =>
      rw [List.getLast?_cons_cons] at h
      exact List.mem_cons_of_mem b (ih a h)

lemma ne_empty_of_length_pos (s : String) (h : 0 < s.length) : s ≠ "" := by
  intro he
  subst he
  exact absurd h (by decide)

lemma attemptOk_failure_err_ne (chunks : List Nat) (resp : GResponse)
    (e : String) (tr : List Nat)
    (h : attemptOk chunks resp = AttemptRes.failure e tr) : e ≠ "" := by
  rw [attemptOk] at h
  split at h
  · split at h
    · simp only [AttemptRes.failure.injEq] at h
      rw [← h.1]
      apply ne_empty_of_length_pos
      rw [String.length_append]
      have hlit : 0 < ("内容被安全策略阻止: ").length := by decide
      omega
    · simp only [AttemptRes.failure.injEq] at h
      rw [← h.1]
      apply ne_empty_of_length_pos
      rw [String.length_append, String.length_append]
      have hlit : 0 < ("未生成任何结果 (响应: ").length := by decide
      omega
  · split at h
    · exact absurd h (by simp)
    · simp only [AttemptRes.failure.injEq] at h
      rw [← h.1]
      apply ne_empty_of_length_pos
      rw [String.length_append]
      have hlit : 0 < ("响应中没有图像数据").length := by decide
      omega

lemma failure_err_ne_empty (o : Outcome) (e : String) (tr : List Nat)
    (h : runAttempt o = AttemptRes.failure e tr) : e ≠ "" := by
  cases o with
  | exn cs n m =>
    simp only [runAttempt, AttemptRes.failure.injEq] at h
    rw [← h.1]
    apply ne_empty_of_length_pos
    rw [String.length_append, String.length_append]
    have hlit : 0 < (": ").length := by decide
    omega
  | httpErr s b =>
    simp only [runAttempt, AttemptRes.failure.injEq] at h
    rw [← h.1]
    apply ne_empty_of_length_pos
    rw [String.length_append, String.length_append, String.length_append]
    have hlit : 0 < ("API错误 (").length := by decide
    omega
  | badJson cs m =>
    simp only [runAttempt, AttemptRes.failure.injEq] at h
    rw [← h.1]
    apply ne_empty_of_length_pos
    rw [String.length_append]
    have hlit : 0 < ("JSONDecodeError: ").length := by decide
    omega
  | ok cs resp => exact attemptOk_failure_err_ne cs resp e tr h

lemma errOf_runAttempt (o : Outcome) (e : String) (tr : List Nat)
    (h : runAttempt o = AttemptRes.failure e tr) : errOf o = e := by
  rw [errOf, h]

lemma runFrom_all_fail (outs : List Outcome) :
    (∀ o ∈ outs, isFailureO o = true) →
    ∀ (e : Option String) (cur : Nat),
      (runFrom outs e cur).task.status = "failed" ∧
      (runFrom outs e cur).task.result_base64 = none ∧
      (runFrom outs e cur).task.jobError =
        some (pyOr (match outs.getLast? with
                    | some o => some (errOf o)
                    | none => e) "所有主机都失败") := by
  induction outs with
  | nil =>
    intro _ e cur
    simp [runFrom]
  | cons o rest ih =>
    intro h e cur
    have ho := h o (List.mem_cons_self o rest)
    cases hr : runAttempt o with
    | success a b c => simp [isFailureO, hr] at ho
    | failure e' tr =>
      simp only [runFrom, hr]
      have hrec := ih (fun q hq => h q (List.mem_cons_of_mem o hq))
        (some e') (tr.getLastD cur)
      refine ⟨hrec.1, hrec.2.1, ?_⟩
      rw [hrec.2.2]
      cases rest with
      | nil =>
        simp [List.getLast?_singleton, errOf_runAttempt o e' tr hr]
      | cons r t =>
        rw [List.getLast?_cons_cons, List.getLast?_cons]

/-- C4: when every endpoint attempt fails (including all-safety-block or
all-malformed runs), the job ends failed, with no result, and its error field
is the last recorded per-attempt failure reason — or the generic
all-endpoints-failed message when no attempt ever recorded one; the error
lives in the job record (the engine writes a terminal state instead of
raising). -/
theorem c4_all_endpoints_failed (outs : List Outcome)
    (h : ∀ o ∈ outs, isFailureO o = true) :
    (engineRun outs).task.status = "failed" ∧
    (engineRun outs).task.result_base64 = none ∧
    (engineRun outs).task.jobError =
      some (match outs.getLast? with
            | some o => errOf o
            | none => "所有主机都失败") := by
  have hmain := runFrom_all_fail outs h none 10
  refine ⟨hmain.1, hmain.2.1, ?_⟩
  rw [engineRun, hmain.2.2]
  cases hl : outs.getLast? with
  | none => rfl
  | some o =>
    have hmem := mem_of_getLast?_eq outs o hl
    obtain ⟨e, tr, hr⟩ := isFailureO_failure o (h o hmem)
    simp [pyOr, errOf_runAttempt o e tr hr, failure_err_ne_empty o e tr hr]

/-- Witness for C4: an HTTP-500 endpoint then a safety-blocked endpoint; the
job fails with the safety-block reason of the last attempt. -/
theorem c4_all_endpoints_failed_witness :
    (engineRun [Outcome.httpErr 500 "oops",
      Outcome.ok [] { candidates := [], blockReason := "SAFETY" }]).task.status
      = "failed" ∧
    (engineRun [Outcome.httpErr 500 "oops",
      Outcome.ok [] { candidates := [], blockReason := "SAFETY" }]).task.jobError
      = some "内容被安全策略阻止: SAFETY" := by
  have h4 := c4_all_endpoints_failed
    [Outcome.httpErr 500 "oops",
     Outcome.ok [] { candidates := [], blockReason := "SAFETY" }]
    (by
      intro p hp
      rw [List.mem_cons, List.mem_singleton] at hp
      rcases hp with rfl | rfl <;> decide)
  refine ⟨h4.1, ?_⟩
  rw [h4.2.2]
  decide

/-! ### C8 -/

/-- The pattern the claim asserts, read from its words: the whole string is
`data:image/<word-characters>;base64,<non-empty payload>` with the payload an
arbitrary non-empty character sequence. -/
def claimedPattern (s : String) : Prop :=
  ∃ w p, s.data = ("data:image/".data) ++ w ++ (";base64,".data) ++ p ∧
    w ≠ [] ∧ (∀ c ∈ w, isWordChar c = true) ∧ p ≠ []

/-- The pattern the code actually recognises: anchored at the start only, with
at least one non-newline character right after `";base64,"` (anything from the
first newline on, and any trailing content, is ignored). -/
def amendedPattern (s : String) : Prop :=
  ∃ w c p, s.data = ("data:image/".data) ++ w ++ (";base64,".data) ++ (c :: p) ∧
    w ≠ [] ∧ (∀ x ∈ w, isWordChar x = true) ∧ c ≠ '\n'

lemma takeWhile_dropWhile_app (f : Char → Bool) :
    ∀ (w : List Char) (c : Char) (t : List Char),
    (∀ x ∈ w, f x = true) → f c = false →
    (w ++ c :: t).takeWhile f = w ∧ (w ++ c :: t).dropWhile f = c :: t := by
  intro w
  induction w with
  | nil =>
    intro c t _ hc
    simp [List.takeWhile_cons, List.dropWhile_cons, hc]
  | cons a w2 ih =>
    intro c t hw hc
    have ha : f a = true := hw a (List.mem_cons_self a w2)
    have hrec := ih c t (fun x hx => hw x (List.mem_cons_of_mem a hx)) hc
    simp [List.takeWhile_cons, List.dropWhile_cons, ha, hrec.1, hrec.2]

lemma parseDataUrl_isSome_iff (s : String) :
    (parseDataUrl s).isSome = true ↔ amendedPattern s := by
  constructor
  · intro h
    rw [parseDataUrl] at h
    split at h
    · simp at h
    · next rest hsp =>
      split at h
      · simp at h
      · next hw =>
        split at h
        · simp at h
        · next tail hsp2 =>
          split at h
          · simp at h
          · next hp =>
            have hs := stripPre_some_eq _ _ _ hsp
            have ht := stripPre_some_eq _ _ _ hsp2
            cases htail : tail with
            | nil => subst htail; simp at hp
            | cons c p =>
              subst htail
              have hc : (c != '\n') = true := by
                by_cases hcn : (c != '\n') = true
                · exact hcn
                · rw [Bool.not_eq_true] at hcn
                  rw [List.takeWhile_cons, hcn] at hp
                  simp at hp
              refine ⟨rest.takeWhile isWordChar, c, p, ?_, hw, ?_, ?_⟩
              · have hrest : rest =
                    rest.takeWhile isWordChar ++ ((";base64,".data) ++ (c :: p)) := by
                  conv_lhs => rw [← List.takeWhile_append_dropWhile isWordChar rest]
                  rw [ht]
                rw [hs]
                conv_lhs => rw [hrest]
                simp [List.append_assoc]
              · intro x hx; exact List.mem_takeWhile_imp hx
              · simpa using hc
  · rintro ⟨w, c, p, hs, hw, hwall, hc⟩
    have hsemi : (";base64,".data) = ';' :: ("base64,".data) := by decide
    have hword : isWordChar ';' = false := by decide
    have htw := takeWhile_dropWhile_app isWordChar w ';' (("base64,".data) ++ c :: p)
      hwall hword
    have hs2 : s.data =
        ("data:image/".data) ++ (w ++ (';' :: (("base64,".data) ++ (c :: p)))) := by
      rw [hs]
      simp [hsemi, List.append_assoc]
    have hcb : (c != '\n') = true := by simpa using hc
    have h3 : stripPre (";base64,".data) (';' :: (("base64,".data) ++ (c :: p))) =
        some (c :: p) := by
      rw [hsemi]
      exact stripPre_app _ _
    rw [parseDataUrl, hs2, stripPre_app]
    dsimp only
    rw [htw.1, if_neg hw, htw.2, h3]
    dsimp only
    rw [List.takeWhile_cons, hcb]
    simp

/-- C8 counterexample: the string `"data:image/png;base64,\nAA"` matches the
claim's pattern (word-character MIME, non-empty payload) yet contributes no
inline part — the payload may not begin with a newline, because `.` in the
regex does not match newlines. -/
theorem c8_data_url_counterexample :
    claimedPattern "data:image/png;base64,\nAA" ∧
    parseDataUrl "data:image/png;base64,\nAA" = none ∧
    buildParts "T" ["data:image/png;base64,\nAA"] = [PartOut.text "T"] := by
  refine ⟨⟨['p', 'n', 'g'], ['\n', 'A', 'A'], by decide, by decide, by decide,
    by decide⟩, by decide, by decide⟩

/-- C8 (amended): a reference-image string contributes an inline part iff it
starts with `data:image/<word-characters>;base64,` followed by at least one
character that is not a newline (trailing content past the first newline is
ignored rather than rejected); every other string is silently dropped — no
error, no placeholder part. -/
theorem c8_data_url_guard_amended (s T : String) :
    ((parseDataUrl s).isSome = true ↔ amendedPattern s) ∧
    buildParts T [s] = (match parseDataUrl s with
      | some (m, d) => [PartOut.inline m d, PartOut.text T]
      | none => [PartOut.text T]) := by
  refine ⟨parseDataUrl_isSome_iff s, ?_⟩
  rw [buildParts]
  cases h : parseDataUrl s with
  | none => simp [buildStep, h]
  | some md =>
    obtain ⟨m, d⟩ := md
    simp [buildStep, h]

end NanoBanana
